import Mathlib

set_option maxHeartbeats 1000000

-- Verification development for the connector run execution engine
-- (src/flows/dlt_pipeline_flow.py).  The data model and the operations are
-- embedded shallowly: every transfer loop, the run orchestrator and the
-- database export are translated into executable Lean functions, and external
-- effects (object-store copy, SFTP upload, HTTP requests, database fetches)
-- are driven by explicit oracles so that failure paths are part of the model.

-- Glob-style pattern matching.  Modelled from the spec: the adapters filter
-- file listings with the external fnmatch library, which is not part of this
-- repository ("glob-style pattern matching", spec 4.3: the star matches any
-- character sequence, including path separators).  The model covers the star
-- and question-mark wildcards and literal characters; fnmatch character
-- classes are not exercised by any claim and are treated as literals.
-- The first argument is fuel; it strictly decreases on every recursive call
-- and the wrapper supplies pattern length + string length + 1, which is enough
-- because every call also decreases that sum.
def globMatchAux : Nat → List Char → List Char → Bool
  | 0, _, _ => false
  | _ + 1, [], s => s.isEmpty
  | n + 1, '*' :: ps, s =>
    globMatchAux n ps s ||
      (match s with
       | [] => false
       | _ :: s2 => globMatchAux n ('*' :: ps) s2)
  | n + 1, '?' :: ps, s =>
    (match s with
     | [] => false
     | _ :: s2 => globMatchAux n ps s2)
  | n + 1, p :: ps, s =>
    (match s with
     | [] => false
     | c :: s2 => p == c && globMatchAux n ps s2)

-- fnmatch.fnmatch(s, pat) with case-sensitive (POSIX) semantics.
def globMatch (s pat : String) : Bool :=
  globMatchAux (pat.toList.length + s.toList.length + 1) pat.toList s.toList

theorem globMatchAux_star : ∀ (cs : List Char) (f : Nat),
    cs.length + 2 ≤ f → globMatchAux f ['*'] cs = true := by
  intro cs
  induction cs with
  | nil =>
    intro f hf
    obtain ⟨n, rfl⟩ : ∃ n, f = n + 1 := ⟨f - 1, by omega⟩
    have hn : 1 ≤ n := by simp at hf; omega
    obtain ⟨m, rfl⟩ : ∃ m, n = m + 1 := ⟨n - 1, by omega⟩
    simp [globMatchAux]
  | cons c cs ih =>
    intro f hf
    have hlen : cs.length + 3 ≤ f := by simpa using hf
    obtain ⟨n, rfl⟩ : ∃ n, f = n + 1 := ⟨f - 1, by omega⟩
    simp only [globMatchAux, Bool.or_eq_true]
    right
    exact ih n (by omega)

-- The pattern consisting of a single star matches every string.  The source
-- relies on this: its special case for file_pattern == "*" is subsumed by
-- matching the bare file name against the pattern.
theorem globMatch_star (s : String) : globMatch s "*" = true := by
  have h : globMatch s "*" = globMatchAux (1 + s.toList.length + 1) ['*'] s.toList := rfl
  rw [h]
  exact globMatchAux_star s.toList _ (by omega)

-- Python str.rstrip('/'): drop every trailing slash.
def rstripSlashes (s : String) : String :=
  ⟨(s.toList.reverse.dropWhile (fun c => c == '/')).reverse⟩

-- The listing prefix computed by every adapter:
-- source_path = source_config.get("path", "").rstrip('/')
-- prefix = f"{source_path}/" if source_path else ""
def prefixOf (srcPath : String) : String :=
  let p := rstripSlashes srcPath
  if p == "" then "" else p ++ "/"

-- file_name = file_key.split('/')[-1]: the suffix after the last slash
-- (the whole key when it has no slash).
def bareName (key : String) : String :=
  ⟨(key.toList.reverse.takeWhile (fun c => !(c == '/'))).reverse⟩

-- file_key.endswith('/'): the pseudo-directory marker test.
def endsWithSlash (key : String) : Bool :=
  key.toList.getLastD ' ' == '/'

-- ", ".join(missing_fields)
def joinCommaSep : List String → String
  | [] => ""
  | [x] => x
  | x :: y :: xs => x ++ ", " ++ joinCommaSep (y :: xs)

example : bareName "in/a.csv" = "a.csv" := by decide
example : bareName "dir/" = "" := by decide
example : bareName "plain.pdf" = "plain.pdf" := by decide
example : endsWithSlash "dir/" = true := by decide
example : endsWithSlash "a.csv" = false := by decide
example : globMatch "orders.csv" "*.csv" = true := by decide
example : globMatch "orders.csv.bak" "*.csv" = false := by decide
example : globMatch "data/in/orders.csv" "*.csv" = true := by decide
example : prefixOf "src" = "src/" := by decide
example : prefixOf "" = "" := by decide
example : joinCommaSep ["host", "port"] = "host, port" := by decide

-- Observable effects issued by the file-matching adapters against the source
-- store and the destination, in program order.  copyOk/copyFail stand for the
-- object-store copy (or the download-to-destination write of the filesystem
-- adapter); uploadOk/uploadFail stand for the SFTP put or the REST upload;
-- download is the staging download from the source store; delete is the
-- delete_object call against the source.
inductive Ev where
  | copyOk (k : String)
  | copyFail (k : String)
  | uploadOk (k : String)
  | uploadFail (k : String)
  | delete (k : String)
  | download (k : String)
  | openTransport
  | closeSftp
  | closeTransport
deriving DecidableEq

-- Pattern test of move_processed_files_function (lines 244-254):
-- file_pattern == "*", or fnmatch(file_name, pattern), or
-- fnmatch(file_key, prefix + pattern), or fnmatch(file_key, pattern).
def s3MatchB (pre pat key : String) : Bool :=
  (pat == "*") || globMatch (bareName key) pat ||
    globMatch key (pre ++ pat) || globMatch key pat

-- Pattern test of transfer_to_sftp_function (line 338):
-- fnmatch(file_name, pattern) or fnmatch(file_key, prefix + pattern)
-- or file_pattern == "*".
def sftpMatchB (pre pat key : String) : Bool :=
  globMatch (bareName key) pat || globMatch key (pre ++ pat) || (pat == "*")

-- Pattern test of transfer_to_filesystem_function (line 404): same shape as
-- the SFTP adapter.
def fsMatchB (pre pat key : String) : Bool :=
  globMatch (bareName key) pat || globMatch key (pre ++ pat) || (pat == "*")

-- Pattern test of transfer_to_rest_api_function (lines 527-529): same shape
-- as the SFTP adapter (the loop continues when it is false).
def restMatchB (pre pat key : String) : Bool :=
  globMatch (bareName key) pat || globMatch key (pre ++ pat) || (pat == "*")

-- Loop of move_processed_files_function (lines 236-271).  ok k tells whether
-- the copy_object call for key k succeeds; a raising copy aborts the whole
-- function, whose top-level handler (lines 274-276) then returns 0 regardless
-- of the files already moved.  The accumulator n is moved_count.
def s3MoveGo (ok : String → Bool) (pre pat : String) :
    List String → Nat → Nat × List Ev
  | [], n => (n, [])
  | k :: ks, n =>
    if endsWithSlash k then s3MoveGo ok pre pat ks n
    else if s3MatchB pre pat k then
      if ok k then
        let r := s3MoveGo ok pre pat ks (n + 1)
        (r.1, Ev.copyOk k :: Ev.delete k :: r.2)
      else (0, [Ev.copyFail k])
    else s3MoveGo ok pre pat ks n

def moveProcessedFiles (ok : String → Bool) (srcPath pat : String)
    (keys : List String) : Nat × List Ev :=
  s3MoveGo ok (prefixOf srcPath) pat keys 0

-- Loop of transfer_to_sftp_function (lines 310-355).  The transport is opened
-- before the listing loop; ok k tells whether the per-file work (modelled at
-- the sftp.put call) succeeds; an exception aborts the function, whose handler
-- (lines 356-358) returns 0 WITHOUT closing the session or the transport.
-- Only the fall-through exit (lines 353-354) emits the close events.
def sftpGo (ok : String → Bool) (pre pat : String) :
    List String → Nat → Nat × List Ev
  | [], n => (n, [Ev.closeSftp, Ev.closeTransport])
  | k :: ks, n =>
    if endsWithSlash k then sftpGo ok pre pat ks n
    else if sftpMatchB pre pat k then
      if ok k then
        let r := sftpGo ok pre pat ks (n + 1)
        (r.1, Ev.download k :: Ev.uploadOk k :: Ev.delete k :: r.2)
      else (0, [Ev.download k, Ev.uploadFail k])
    else sftpGo ok pre pat ks n

def transferToSftp (ok : String → Bool) (srcPath pat : String)
    (keys : List String) : Nat × List Ev :=
  let r := sftpGo ok (prefixOf srcPath) pat keys 0
  (r.1, Ev.openTransport :: r.2)

-- Loop of transfer_to_filesystem_function (lines 397-413).  The
-- download_file call writes the object to the destination path (it is the
-- copy); ok k tells whether it succeeds; an exception aborts the function,
-- whose handler (lines 416-418) returns 0.
def fsGo (ok : String → Bool) (pre pat : String) :
    List String → Nat → Nat × List Ev
  | [], n => (n, [])
  | k :: ks, n =>
    if endsWithSlash k then fsGo ok pre pat ks n
    else if fsMatchB pre pat k then
      if ok k then
        let r := fsGo ok pre pat ks (n + 1)
        (r.1, Ev.copyOk k :: Ev.delete k :: r.2)
      else (0, [Ev.copyFail k])
    else fsGo ok pre pat ks n

def transferToFilesystem (ok : String → Bool) (srcPath pat : String)
    (keys : List String) : Nat × List Ev :=
  fsGo ok (prefixOf srcPath) pat keys 0

example :
    moveProcessedFiles (fun _ => true) "in" "*" ["in/a.csv", "in/sub/"] =
      (1, [Ev.copyOk "in/a.csv", Ev.delete "in/a.csv"]) := by decide
example :
    transferToSftp (fun _ => false) "in" "*" ["in/a.csv"] =
      (0, [Ev.openTransport, Ev.download "in/a.csv", Ev.uploadFail "in/a.csv"]) := by
  decide

-- A delete of key k may appear in a trace only after a successful copy or a
-- successful upload of that same key.
def deleteAfterSuccess (tr : List Ev) : Prop :=
  ∀ (front : List Ev) (k : String) (back : List Ev),
    tr = front ++ Ev.delete k :: back →
    Ev.copyOk k ∈ front ∨ Ev.uploadOk k ∈ front

-- A key whose copy or upload failed is never deleted from the source.
def failedNeverDeleted (tr : List Ev) : Prop :=
  ∀ k : String, (Ev.copyFail k ∈ tr ∨ Ev.uploadFail k ∈ tr) →
    Ev.delete k ∉ tr

def safeTrace (tr : List Ev) : Prop :=
  deleteAfterSuccess tr ∧ failedNeverDeleted tr

-- Scanner for deleteAfterSuccess: cs collects the keys whose copy/upload has
-- already succeeded; a delete is only accepted for a collected key.
def covered (cs : List String) : List Ev → Bool
  | [] => true
  | Ev.copyOk k :: tr => covered (k :: cs) tr
  | Ev.uploadOk k :: tr => covered (k :: cs) tr
  | Ev.delete k :: tr => decide (k ∈ cs) && covered cs tr
  | _ :: tr => covered cs tr

theorem covered_sound : ∀ (front tr : List Ev) (cs : List String) (k : String)
    (back : List Ev), covered cs tr = true → tr = front ++ Ev.delete k :: back →
    k ∈ cs ∨ Ev.copyOk k ∈ front ∨ Ev.uploadOk k ∈ front := by
  intro front
  induction front with
  | nil =>
    intro tr cs k back hc ht
    subst ht
    simp only [List.nil_append, covered, Bool.and_eq_true, decide_eq_true_eq] at hc
    exact Or.inl hc.1
  | cons e front ih =>
    intro tr cs k back hc ht
    subst ht
    rw [List.cons_append] at hc
    cases e with
    | copyOk k0 =>
      rcases ih _ (k0 :: cs) k back (by simpa [covered] using hc) rfl with h | h | h
      · rcases List.mem_cons.mp h with h | h
        · exact Or.inr (Or.inl (List.mem_cons.mpr (Or.inl (by rw [h]))))
        · exact Or.inl h
      · exact Or.inr (Or.inl (List.mem_cons_of_mem _ h))
      · exact Or.inr (Or.inr (List.mem_cons_of_mem _ h))
    | uploadOk k0 =>
      rcases ih _ (k0 :: cs) k back (by simpa [covered] using hc) rfl with h | h | h
      · rcases List.mem_cons.mp h with h | h
        · exact Or.inr (Or.inr (List.mem_cons.mpr (Or.inl (by rw [h]))))
        · exact Or.inl h
      · exact Or.inr (Or.inl (List.mem_cons_of_mem _ h))
      · exact Or.inr (Or.inr (List.mem_cons_of_mem _ h))
    | delete k0 =>
      have hc2 : covered cs (front ++ Ev.delete k :: back) = true := by
        simp only [covered, Bool.and_eq_true] at hc
        exact hc.2
      rcases ih _ cs k back hc2 rfl with h | h | h
      · exact Or.inl h
      · exact Or.inr (Or.inl (List.mem_cons_of_mem _ h))
      · exact Or.inr (Or.inr (List.mem_cons_of_mem _ h))
    | copyFail k0 =>
      rcases ih _ cs k back (by simpa [covered] using hc) rfl with h | h | h
      · exact Or.inl h
      · exact Or.inr (Or.inl (List.mem_cons_of_mem _ h))
      · exact Or.inr (Or.inr (List.mem_cons_of_mem _ h))
    | uploadFail k0 =>
      rcases ih _ cs k back (by simpa [covered] using hc) rfl with h | h | h
      · exact Or.inl h
      · exact Or.inr (Or.inl (List.mem_cons_of_mem _ h))
      · exact Or.inr (Or.inr (List.mem_cons_of_mem _ h))
    | download k0 =>
      rcases ih _ cs k back (by simpa [covered] using hc) rfl with h | h | h
      · exact Or.inl h
      · exact Or.inr (Or.inl (List.mem_cons_of_mem _ h))
      · exact Or.inr (Or.inr (List.mem_cons_of_mem _ h))
    | openTransport =>
      rcases ih _ cs k back (by simpa [covered] using hc) rfl with h | h | h
      · exact Or.inl h
      · exact Or.inr (Or.inl (List.mem_cons_of_mem _ h))
      · exact Or.inr (Or.inr (List.mem_cons_of_mem _ h))
    | closeSftp =>
      rcases ih _ cs k back (by simpa [covered] using hc) rfl with h | h | h
      · exact Or.inl h
      · exact Or.inr (Or.inl (List.mem_cons_of_mem _ h))
      · exact Or.inr (Or.inr (List.mem_cons_of_mem _ h))
    | closeTransport =>
      rcases ih _ cs k back (by simpa [covered] using hc) rfl with h | h | h
      · exact Or.inl h
      · exact Or.inr (Or.inl (List.mem_cons_of_mem _ h))
      · exact Or.inr (Or.inr (List.mem_cons_of_mem _ h))

theorem covered_deleteAfterSuccess {tr : List Ev} (h : covered [] tr = true) :
    deleteAfterSuccess tr := by
  intro front k back ht
  rcases covered_sound front tr [] k back h ht with h1 | h1 | h1
  · exact absurd h1 (List.not_mem_nil k)
  · exact Or.inl h1
  · exact Or.inr h1

theorem s3MoveGo_covered (ok : String → Bool) (pre pat : String) :
    ∀ (ks : List String) (cs : List String) (n : Nat),
      covered cs (s3MoveGo ok pre pat ks n).2 = true := by
  intro ks
  induction ks with
  | nil => intro cs n; simp [s3MoveGo, covered]
  | cons a as ih =>
    intro cs n
    by_cases h1 : endsWithSlash a = true
    · simp [s3MoveGo, h1, ih]
    · by_cases h2 : s3MatchB pre pat a = true
      · by_cases h3 : ok a = true
        · simp [s3MoveGo, h1, h2, h3, covered, ih]
        · simp [s3MoveGo, h1, h2, h3, covered]
      · simp [s3MoveGo, h1, h2, ih]

theorem s3MoveGo_delete_ok (ok : String → Bool) (pre pat : String) :
    ∀ (ks : List String) (n : Nat) (k : String),
      Ev.delete k ∈ (s3MoveGo ok pre pat ks n).2 → ok k = true := by
  intro ks
  induction ks with
  | nil => intro n k h; simp [s3MoveGo] at h
  | cons a as ih =>
    intro n k h
    by_cases h1 : endsWithSlash a = true
    · rw [s3MoveGo, if_pos h1] at h; exact ih n k h
    · by_cases h2 : s3MatchB pre pat a = true
      · by_cases h3 : ok a = true
        · rw [s3MoveGo, if_neg h1, if_pos h2, if_pos h3] at h
          simp only [List.mem_cons] at h
          rcases h with h | h | h
          · exact absurd h (by simp)
          · rw [Ev.delete.injEq] at h; rw [h]; exact h3
          · exact ih (n + 1) k h
        · rw [s3MoveGo, if_neg h1, if_pos h2, if_neg h3] at h
          simp at h
      · rw [s3MoveGo, if_neg h1, if_neg h2] at h; exact ih n k h

theorem s3MoveGo_copyFail_not_ok (ok : String → Bool) (pre pat : String) :
    ∀ (ks : List String) (n : Nat) (k : String),
      Ev.copyFail k ∈ (s3MoveGo ok pre pat ks n).2 → ok k = false := by
  intro ks
  induction ks with
  | nil => intro n k h; simp [s3MoveGo] at h
  | cons a as ih =>
    intro n k h
    by_cases h1 : endsWithSlash a = true
    · rw [s3MoveGo, if_pos h1] at h; exact ih n k h
    · by_cases h2 : s3MatchB pre pat a = true
      · by_cases h3 : ok a = true
        · rw [s3MoveGo, if_neg h1, if_pos h2, if_pos h3] at h
          simp only [List.mem_cons] at h
          rcases h with h | h | h
          · exact absurd h (by simp)
          · exact absurd h (by simp)
          · exact ih (n + 1) k h
        · rw [s3MoveGo, if_neg h1, if_pos h2, if_neg h3] at h
          simp only [List.mem_cons, List.not_mem_nil, or_false] at h
          rw [Ev.copyFail.injEq] at h
          rw [h]
          exact Bool.eq_false_iff.mpr h3
      · rw [s3MoveGo, if_neg h1, if_neg h2] at h; exact ih n k h

theorem s3MoveGo_no_uploadFail (ok : String → Bool) (pre pat : String) :
    ∀ (ks : List String) (n : Nat) (k : String),
      Ev.uploadFail k ∉ (s3MoveGo ok pre pat ks n).2 := by
  intro ks
  induction ks with
  | nil => intro n k h; simp [s3MoveGo] at h
  | cons a as ih =>
    intro n k h
    by_cases h1 : endsWithSlash a = true
    · rw [s3MoveGo, if_pos h1] at h; exact ih n k h
    · by_cases h2 : s3MatchB pre pat a = true
      · by_cases h3 : ok a = true
        · rw [s3MoveGo, if_neg h1, if_pos h2, if_pos h3] at h
          simp only [List.mem_cons] at h
          rcases h with h | h | h
          · exact absurd h (by simp)
          · exact absurd h (by simp)
          · exact ih (n + 1) k h
        · rw [s3MoveGo, if_neg h1, if_pos h2, if_neg h3] at h
          simp at h
      · rw [s3MoveGo, if_neg h1, if_neg h2] at h; exact ih n k h

theorem s3MoveGo_safe (ok : String → Bool) (pre pat : String)
    (ks : List String) (n : Nat) : safeTrace (s3MoveGo ok pre pat ks n).2 := by
  constructor
  · exact covered_deleteAfterSuccess (s3MoveGo_covered ok pre pat ks [] n)
  · intro k hf hd
    rcases hf with hf | hf
    · have h1 := s3MoveGo_delete_ok ok pre pat ks n k hd
      have h2 := s3MoveGo_copyFail_not_ok ok pre pat ks n k hf
      rw [h1] at h2
      exact Bool.noConfusion h2
    · exact s3MoveGo_no_uploadFail ok pre pat ks n k hf

theorem sftpGo_covered (ok : String → Bool) (pre pat : String) :
    ∀ (ks : List String) (cs : List String) (n : Nat),
      covered cs (sftpGo ok pre pat ks n).2 = true := by
  intro ks
  induction ks with
  | nil => intro cs n; simp [sftpGo, covered]
  | cons a as ih =>
    intro cs n
    by_cases h1 : endsWithSlash a = true
    · simp [sftpGo, h1, ih]
    · by_cases h2 : sftpMatchB pre pat a = true
      · by_cases h3 : ok a = true
        · simp [sftpGo, h1, h2, h3, covered, ih]
        · simp [sftpGo, h1, h2, h3, covered]
      · simp [sftpGo, h1, h2, ih]

theorem sftpGo_delete_ok (ok : String → Bool) (pre pat : String) :
    ∀ (ks : List String) (n : Nat) (k : String),
      Ev.delete k ∈ (sftpGo ok pre pat ks n).2 → ok k = true := by
  intro ks
  induction ks with
  | nil => intro n k h; simp [sftpGo] at h
  | cons a as ih =>
    intro n k h
    by_cases h1 : endsWithSlash a = true
    · rw [sftpGo, if_pos h1] at h; exact ih n k h
    · by_cases h2 : sftpMatchB pre pat a = true
      · by_cases h3 : ok a = true
        · rw [sftpGo, if_neg h1, if_pos h2, if_pos h3] at h
          simp only [List.mem_cons] at h
          rcases h with h | h | h | h
          · exact absurd h (by simp)
          · exact absurd h (by simp)
          · rw [Ev.delete.injEq] at h; rw [h]; exact h3
          · exact ih (n + 1) k h
        · rw [sftpGo, if_neg h1, if_pos h2, if_neg h3] at h
          simp at h
      · rw [sftpGo, if_neg h1, if_neg h2] at h; exact ih n k h

theorem sftpGo_uploadFail_not_ok (ok : String → Bool) (pre pat : String) :
    ∀ (ks : List String) (n : Nat) (k : String),
      Ev.uploadFail k ∈ (sftpGo ok pre pat ks n).2 → ok k = false := by
  intro ks
  induction ks with
  | nil => intro n k h; simp [sftpGo] at h
  | cons a as ih =>
    intro n k h
    by_cases h1 : endsWithSlash a = true
    · rw [sftpGo, if_pos h1] at h; exact ih n k h
    · by_cases h2 : sftpMatchB pre pat a = true
      · by_cases h3 : ok a = true
        · rw [sftpGo, if_neg h1, if_pos h2, if_pos h3] at h
          simp only [List.mem_cons] at h
          rcases h with h | h | h | h
          · exact absurd h (by simp)
          · exact absurd h (by simp)
          · exact absurd h (by simp)
          · exact ih (n + 1) k h
        · rw [sftpGo, if_neg h1, if_pos h2, if_neg h3] at h
          simp only [List.mem_cons, List.not_mem_nil, or_false] at h
          rcases h with h | h
          · exact absurd h (by simp)
          · rw [Ev.uploadFail.injEq] at h
            rw [h]
            exact Bool.eq_false_iff.mpr h3
      · rw [sftpGo, if_neg h1, if_neg h2] at h; exact ih n k h

theorem sftpGo_no_copyFail (ok : String → Bool) (pre pat : String) :
    ∀ (ks : List String) (n : Nat) (k : String),
      Ev.copyFail k ∉ (sftpGo ok pre pat ks n).2 := by
  intro ks
  induction ks with
  | nil => intro n k h; simp [sftpGo] at h
  | cons a as ih =>
    intro n k h
    by_cases h1 : endsWithSlash a = true
    · rw [sftpGo, if_pos h1] at h; exact ih n k h
    · by_cases h2 : sftpMatchB pre pat a = true
      · by_cases h3 : ok a = true
        · rw [sftpGo, if_neg h1, if_pos h2, if_pos h3] at h
          simp only [List.mem_cons] at h
          rcases h with h | h | h | h
          · exact absurd h (by simp)
          · exact absurd h (by simp)
          · exact absurd h (by simp)
          · exact ih (n + 1) k h
        · rw [sftpGo, if_neg h1, if_pos h2, if_neg h3] at h
          simp at h
      · rw [sftpGo, if_neg h1, if_neg h2] at h; exact ih n k h

theorem transferToSftp_safe (ok : String → Bool) (srcPath pat : String)
    (ks : List String) : safeTrace (transferToSftp ok srcPath pat ks).2 := by
  constructor
  · exact covered_deleteAfterSuccess
      (by simpa [transferToSftp, covered] using
        sftpGo_covered ok (prefixOf srcPath) pat ks [] 0)
  · intro k hf hd
    rw [transferToSftp] at hf hd
    simp only [List.mem_cons] at hf hd
    rcases hd with hd | hd
    · exact absurd hd (by simp)
    · rcases hf with hf | hf
      · rcases hf with hf | hf
        · exact absurd hf (by simp)
        · exact sftpGo_no_copyFail ok (prefixOf srcPath) pat ks 0 k hf
      · rcases hf with hf | hf
        · exact absurd hf (by simp)
        · have h1 := sftpGo_delete_ok ok (prefixOf srcPath) pat ks 0 k hd
          have h2 := sftpGo_uploadFail_not_ok ok (prefixOf srcPath) pat ks 0 k hf
          rw [h1] at h2
          exact Bool.noConfusion h2

theorem fsGo_covered (ok : String → Bool) (pre pat : String) :
    ∀ (ks : List String) (cs : List String) (n : Nat),
      covered cs (fsGo ok pre pat ks n).2 = true := by
  intro ks
  induction ks with
  | nil => intro cs n; simp [fsGo, covered]
  | cons a as ih =>
    intro cs n
    by_cases h1 : endsWithSlash a = true
    · simp [fsGo, h1, ih]
    · by_cases h2 : fsMatchB pre pat a = true
      · by_cases h3 : ok a = true
        · simp [fsGo, h1, h2, h3, covered, ih]
        · simp [fsGo, h1, h2, h3, covered]
      · simp [fsGo, h1, h2, ih]

theorem fsGo_delete_ok (ok : String → Bool) (pre pat : String) :
    ∀ (ks : List String) (n : Nat) (k : String),
      Ev.delete k ∈ (fsGo ok pre pat ks n).2 → ok k = true := by
  intro ks
  induction ks with
  | nil => intro n k h; simp [fsGo] at h
  | cons a as ih =>
    intro n k h
    by_cases h1 : endsWithSlash a = true
    · rw [fsGo, if_pos h1] at h; exact ih n k h
    · by_cases h2 : fsMatchB pre pat a = true
      · by_cases h3 : ok a = true
        · rw [fsGo, if_neg h1, if_pos h2, if_pos h3] at h
          simp only [List.mem_cons] at h
          rcases h with h | h | h
          · exact absurd h (by simp)
          · rw [Ev.delete.injEq] at h; rw [h]; exact h3
          · exact ih (n + 1) k h
        · rw [fsGo, if_neg h1, if_pos h2, if_neg h3] at h
          simp at h
      · rw [fsGo, if_neg h1, if_neg h2] at h; exact ih n k h

theorem fsGo_copyFail_not_ok (ok : String → Bool) (pre pat : String) :
    ∀ (ks : List String) (n : Nat) (k : String),
      Ev.copyFail k ∈ (fsGo ok pre pat ks n).2 → ok k = false := by
  intro ks
  induction ks with
  | nil => intro n k h; simp [fsGo] at h
  | cons a as ih =>
    intro n k h
    by_cases h1 : endsWithSlash a = true
    · rw [fsGo, if_pos h1] at h; exact ih n k h
    · by_cases h2 : fsMatchB pre pat a = true
      · by_cases h3 : ok a = true
        · rw [fsGo, if_neg h1, if_pos h2, if_pos h3] at h
          simp only [List.mem_cons] at h
          rcases h with h | h | h
          · exact absurd h (by simp)
          · exact absurd h (by simp)
          · exact ih (n + 1) k h
        · rw [fsGo, if_neg h1, if_pos h2, if_neg h3] at h
          simp only [List.mem_cons, List.not_mem_nil, or_false] at h
          rw [Ev.copyFail.injEq] at h
          rw [h]
          exact Bool.eq_false_iff.mpr h3
      · rw [fsGo, if_neg h1, if_neg h2] at h; exact ih n k h

theorem fsGo_no_uploadFail (ok : String → Bool) (pre pat : String) :
    ∀ (ks : List String) (n : Nat) (k : String),
      Ev.uploadFail k ∉ (fsGo ok pre pat ks n).2 := by
  intro ks
  induction ks with
  | nil => intro n k h; simp [fsGo] at h
  | cons a as ih =>
    intro n k h
    by_cases h1 : endsWithSlash a = true
    · rw [fsGo, if_pos h1] at h; exact ih n k h
    · by_cases h2 : fsMatchB pre pat a = true
      · by_cases h3 : ok a = true
        · rw [fsGo, if_neg h1, if_pos h2, if_pos h3] at h
          simp only [List.mem_cons] at h
          rcases h with h | h | h
          · exact absurd h (by simp)
          · exact absurd h (by simp)
          · exact ih (n + 1) k h
        · rw [fsGo, if_neg h1, if_pos h2, if_neg h3] at h
          simp at h
      · rw [fsGo, if_neg h1, if_neg h2] at h; exact ih n k h

theorem fsGo_safe (ok : String → Bool) (pre pat : String)
    (ks : List String) (n : Nat) : safeTrace (fsGo ok pre pat ks n).2 := by
  constructor
  · exact covered_deleteAfterSuccess (fsGo_covered ok pre pat ks [] n)
  · intro k hf hd
    rcases hf with hf | hf
    · have h1 := fsGo_delete_ok ok pre pat ks n k hd
      have h2 := fsGo_copyFail_not_ok ok pre pat ks n k hf
      rw [h1] at h2
      exact Bool.noConfusion h2
    · exact fsGo_no_uploadFail ok pre pat ks n k hf

-- Retry policy mounted on the requests session (lines 497-506):
-- Retry(total=3, backoff_factor=1, status_forcelist=[429, 500, 502, 503, 504],
--       allowed_methods=["POST", "PUT", "PATCH"]).
def retryStatuses : List Nat := [429, 500, 502, 503, 504]

def retryAllowedMethods : List String := ["POST", "PUT", "PATCH"]

-- One urllib3 send with the retry policy.  resp i is the status the
-- destination would answer on the i-th attempt; allowed tells whether the
-- request method is in allowed_methods.  A retryable status consumes one of
-- the (at most 3) retries; when they are exhausted the send raises a
-- RequestException (modelled as the error case).  A non-retryable status is
-- returned as the final response.
def retrySendGo (allowed : Bool) (resp : Nat → Nat) :
    Nat → Nat → Except Unit Nat
  | retriesLeft, i =>
    if allowed && retryStatuses.contains (resp i) then
      match retriesLeft with
      | 0 => Except.error ()
      | r + 1 => retrySendGo allowed resp r (i + 1)
    else Except.ok (resp i)

def retrySend (allowed : Bool) (resp : Nat → Nat) : Except Unit Nat :=
  retrySendGo allowed resp 3 0

-- requests.Response.raise_for_status(): raises for 400 <= status < 600.
def isSuccessStatus : Except Unit Nat → Bool
  | Except.ok s => decide (s < 400)
  | Except.error _ => false

-- Destination configuration of the REST adapter (spec 6; lines 457-473).
structure RestDestConfig where
  url : Option String
  endpointUrl : Option String
  method : Option String
deriving DecidableEq

-- Python str.upper for the ASCII method names used here.
def toUpperStr (s : String) : String :=
  ⟨s.toList.map Char.toUpper⟩

-- Per-file request outcome: connFail k models a request that raises before
-- any response (connection error); otherwise the retry-wrapped send runs
-- against the per-file response sequence resp k.
def restOutcome (connFail : String → Bool) (resp : String → Nat → Nat)
    (allowed : Bool) (k : String) : Except Unit Nat :=
  if connFail k then Except.error () else retrySend allowed (resp k)

-- Loop of transfer_to_rest_api_function (lines 517-581).  A success response
-- (raise_for_status does not raise) leads to the source delete and increments
-- transferred_count; a RequestException (caught at lines 576-581) leaves the
-- file untouched and continues with the next file.
def restGo (pre pat : String) (outcome : String → Except Unit Nat) :
    List String → Nat → Nat × List Ev
  | [], n => (n, [])
  | k :: ks, n =>
    if endsWithSlash k then restGo pre pat outcome ks n
    else if restMatchB pre pat k then
      if isSuccessStatus (outcome k) then
        let r := restGo pre pat outcome ks (n + 1)
        (r.1, Ev.download k :: Ev.uploadOk k :: Ev.delete k :: r.2)
      else
        let r := restGo pre pat outcome ks n
        (r.1, Ev.download k :: Ev.uploadFail k :: r.2)
    else restGo pre pat outcome ks n

-- transfer_to_rest_api_function (lines 421-588).  With no url and no
-- endpoint_url the function raises ValueError at line 460, which its own
-- top-level handler (lines 586-588) catches, returning 0 before the source
-- is even listed.
def transferToRestApi (cfg : RestDestConfig) (connFail : String → Bool)
    (resp : String → Nat → Nat) (srcPath pat : String)
    (keys : List String) : Nat × List Ev :=
  match cfg.url <|> cfg.endpointUrl with
  | none => (0, [])
  | some _ =>
    let methodUpper := toUpperStr (cfg.method.getD "POST")
    let allowed := retryAllowedMethods.contains methodUpper
    restGo (prefixOf srcPath) pat (restOutcome connFail resp allowed) keys 0

-- Concatenation of per-key event lists, used to state the loops in closed
-- form.
def evConcat (f : String → List Ev) : List String → List Ev
  | [] => []
  | k :: ks => f k ++ evConcat f ks

theorem mem_evConcat (f : String → List Ev) (e : Ev) :
    ∀ ks : List String, e ∈ evConcat f ks ↔ ∃ k, k ∈ ks ∧ e ∈ f k := by
  intro ks
  induction ks with
  | nil => simp [evConcat]
  | cons a as ih =>
    simp only [evConcat, List.mem_append, ih, List.mem_cons]
    constructor
    · rintro (h | ⟨k, hk, he⟩)
      · exact ⟨a, Or.inl rfl, h⟩
      · exact ⟨k, Or.inr hk, he⟩
    · rintro ⟨k, hk | hk, he⟩
      · rw [hk] at he; exact Or.inl he
      · exact Or.inr ⟨k, hk, he⟩

-- Per-key outcome of the REST loop: matched and answered with a success
-- status.
def restGoodB (pre pat : String) (outcome : String → Except Unit Nat)
    (k : String) : Bool :=
  !(endsWithSlash k) && restMatchB pre pat k && isSuccessStatus (outcome k)

def restEvFor (pre pat : String) (outcome : String → Except Unit Nat)
    (k : String) : List Ev :=
  if endsWithSlash k then []
  else if restMatchB pre pat k then
    if isSuccessStatus (outcome k) then
      [Ev.download k, Ev.uploadOk k, Ev.delete k]
    else [Ev.download k, Ev.uploadFail k]
  else []

theorem restGo_closed (pre pat : String) (outcome : String → Except Unit Nat) :
    ∀ (ks : List String) (n : Nat),
      restGo pre pat outcome ks n =
        (n + (ks.filter (restGoodB pre pat outcome)).length,
         evConcat (restEvFor pre pat outcome) ks) := by
  intro ks
  induction ks with
  | nil => intro n; simp [restGo, evConcat]
  | cons a as ih =>
    intro n
    by_cases h1 : endsWithSlash a = true
    · simp [restGo, h1, ih, evConcat, restEvFor, restGoodB, List.filter]
    · by_cases h2 : restMatchB pre pat a = true
      · by_cases h3 : isSuccessStatus (outcome a) = true
        · simp [restGo, h1, h2, h3, ih, evConcat, restEvFor, restGoodB,
            List.filter]
          omega
        · simp [restGo, h1, h2, h3, ih, evConcat, restEvFor, restGoodB,
            List.filter]
      · simp [restGo, h1, h2, ih, evConcat, restEvFor, restGoodB, List.filter]

theorem restGo_covered (pre pat : String) (outcome : String → Except Unit Nat) :
    ∀ (ks : List String) (cs : List String) (n : Nat),
      covered cs (restGo pre pat outcome ks n).2 = true := by
  intro ks
  induction ks with
  | nil => intro cs n; simp [restGo, covered]
  | cons a as ih =>
    intro cs n
    by_cases h1 : endsWithSlash a = true
    · simp [restGo, h1, ih]
    · by_cases h2 : restMatchB pre pat a = true
      · by_cases h3 : isSuccessStatus (outcome a) = true
        · simp [restGo, h1, h2, h3, covered, ih]
        · simp [restGo, h1, h2, h3, covered, ih]
      · simp [restGo, h1, h2, ih]

theorem restGo_delete_success (pre pat : String)
    (outcome : String → Except Unit Nat) :
    ∀ (ks : List String) (n : Nat) (k : String),
      Ev.delete k ∈ (restGo pre pat outcome ks n).2 →
      isSuccessStatus (outcome k) = true := by
  intro ks
  induction ks with
  | nil => intro n k h; simp [restGo] at h
  | cons a as ih =>
    intro n k h
    by_cases h1 : endsWithSlash a = true
    · rw [restGo, if_pos h1] at h; exact ih n k h
    · by_cases h2 : restMatchB pre pat a = true
      · by_cases h3 : isSuccessStatus (outcome a) = true
        · rw [restGo, if_neg h1, if_pos h2, if_pos h3] at h
          simp only [List.mem_cons] at h
          rcases h with h | h | h | h
          · exact absurd h (by simp)
          · exact absurd h (by simp)
          · rw [Ev.delete.injEq] at h; rw [h]; exact h3
          · exact ih (n + 1) k h
        · rw [restGo, if_neg h1, if_pos h2, if_neg h3] at h
          simp only [List.mem_cons] at h
          rcases h with h | h | h
          · exact absurd h (by simp)
          · exact absurd h (by simp)
          · exact ih n k h
      · rw [restGo, if_neg h1, if_neg h2] at h; exact ih n k h

theorem restGo_uploadFail_not_success (pre pat : String)
    (outcome : String → Except Unit Nat) :
    ∀ (ks : List String) (n : Nat) (k : String),
      Ev.uploadFail k ∈ (restGo pre pat outcome ks n).2 →
      isSuccessStatus (outcome k) = false := by
  intro ks
  induction ks with
  | nil => intro n k h; simp [restGo] at h
  | cons a as ih =>
    intro n k h
    by_cases h1 : endsWithSlash a = true
    · rw [restGo, if_pos h1] at h; exact ih n k h
    · by_cases h2 : restMatchB pre pat a = true
      · by_cases h3 : isSuccessStatus (outcome a) = true
        · rw [restGo, if_neg h1, if_pos h2, if_pos h3] at h
          simp only [List.mem_cons] at h
          rcases h with h | h | h | h
          · exact absurd h (by simp)
          · exact absurd h (by simp)
          · exact absurd h (by simp)
          · exact ih (n + 1) k h
        · rw [restGo, if_neg h1, if_pos h2, if_neg h3] at h
          simp only [List.mem_cons] at h
          rcases h with h | h | h
          · exact absurd h (by simp)
          · rw [Ev.uploadFail.injEq] at h
            rw [h]
            exact Bool.eq_false_iff.mpr h3
          · exact ih n k h
      · rw [restGo, if_neg h1, if_neg h2] at h; exact ih n k h

theorem restGo_no_copyFail (pre pat : String)
    (outcome : String → Except Unit Nat) :
    ∀ (ks : List String) (n : Nat) (k : String),
      Ev.copyFail k ∉ (restGo pre pat outcome ks n).2 := by
  intro ks
  induction ks with
  | nil => intro n k h; simp [restGo] at h
  | cons a as ih =>
    intro n k h
    by_cases h1 : endsWithSlash a = true
    · rw [restGo, if_pos h1] at h; exact ih n k h
    · by_cases h2 : restMatchB pre pat a = true
      · by_cases h3 : isSuccessStatus (outcome a) = true
        · rw [restGo, if_neg h1, if_pos h2, if_pos h3] at h
          simp only [List.mem_cons] at h
          rcases h with h | h | h | h
          · exact absurd h (by simp)
          · exact absurd h (by simp)
          · exact absurd h (by simp)
          · exact ih (n + 1) k h
        · rw [restGo, if_neg h1, if_pos h2, if_neg h3] at h
          simp only [List.mem_cons] at h
          rcases h with h | h | h
          · exact absurd h (by simp)
          · exact absurd h (by simp)
          · exact ih n k h
      · rw [restGo, if_neg h1, if_neg h2] at h; exact ih n k h

theorem transferToRestApi_safe (cfg : RestDestConfig) (connFail : String → Bool)
    (resp : String → Nat → Nat) (srcPath pat : String) (keys : List String) :
    safeTrace (transferToRestApi cfg connFail resp srcPath pat keys).2 := by
  rw [transferToRestApi]
  cases h : cfg.url <|> cfg.endpointUrl with
  | none =>
    constructor
    · intro front k back ht
      exact absurd ht.symm (by simp)
    · intro k hf hd
      simp at hd
  | some u =>
    constructor
    · exact covered_deleteAfterSuccess (restGo_covered _ _ _ keys [] 0)
    · intro k hf hd
      rcases hf with hf | hf
      · exact restGo_no_copyFail _ _ _ keys 0 k hf
      · have h1 := restGo_delete_success _ _ _ keys 0 k hd
        have h2 := restGo_uploadFail_not_success _ _ _ keys 0 k hf
        rw [h1] at h2
        exact Bool.noConfusion h2

-- transfer_files_function (lines 176-191): dispatch on destination type; an
-- unsupported type logs an error and returns 0.
def transferFilesFunction (destType : String) (ok : String → Bool)
    (restCfg : RestDestConfig) (connFail : String → Bool)
    (resp : String → Nat → Nat) (srcPath pat : String)
    (keys : List String) : Nat × List Ev :=
  if destType == "s3" then moveProcessedFiles ok srcPath pat keys
  else if destType == "sftp" then transferToSftp ok srcPath pat keys
  else if destType == "nfs" || destType == "filesystem" then
    transferToFilesystem ok srcPath pat keys
  else if destType == "rest_api" then
    transferToRestApi restCfg connFail resp srcPath pat keys
  else (0, [])

-- Run result dictionary {"status", "rows_ingested", "log_summary"}.
inductive Status where
  | success
  | failed
deriving DecidableEq

structure RunResult where
  status : Status
  rows : Nat
  summary : String
deriving DecidableEq

def fileTransferDestTypes : List String :=
  ["s3", "sftp", "nfs", "filesystem", "rest_api"]

-- File-matching branch of run_dlt_pipeline (lines 1110-1132): when the source
-- type is "filesystem" and the destination type is one of the file-transfer
-- types, the transfer count is taken from transfer_files_function and the run
-- returns success with rows_ingested 0.  Other destination types take the dlt
-- pipeline path, which is outside the file-matching model (none).
def runDltPipelineFT (destType : String) (ok : String → Bool)
    (restCfg : RestDestConfig) (connFail : String → Bool)
    (resp : String → Nat → Nat) (srcPath pat : String)
    (keys : List String) : Option (RunResult × List Ev) :=
  if fileTransferDestTypes.contains destType then
    let r := transferFilesFunction destType ok restCfg connFail resp
      srcPath pat keys
    let n := r.1
    some (⟨Status.success, 0, s!"Transferred {n} file(s) to destination."⟩, r.2)
  else none

-- Effective connector configuration assembled by read_connector_config
-- (lines 133-140).
structure ConnectorConfig where
  connectorId : Nat
  connectorName : String
  sourceType : String
  destType : String
deriving DecidableEq

-- Database calls issued by the orchestrator against the run-record store.
inductive OrchEv where
  | insertStarted
  | updateRec (st : Status)
deriving DecidableEq

def isUpdateEv : OrchEv → Bool
  | OrchEv.updateRec _ => true
  | _ => false

-- run_connector_pipeline (lines 1239-1313).  insertOk tells whether
-- create_run_record succeeds (its failure is caught at lines 1271-1274 and
-- run_id stays None); cfgRes is the outcome of read_connector_config, which
-- can raise; pipeline is run_dlt_pipeline, which catches its own exceptions
-- and always returns a result dictionary.  When the step between the insert
-- and the update raises and a run record exists, the handler at lines
-- 1301-1313 writes a failed update and re-raises; update_run_record calls are
-- themselves wrapped so their failure never adds or removes a call.
def runConnectorPipeline (insertOk : Bool)
    (cfgRes : Except String ConnectorConfig)
    (pipeline : ConnectorConfig → RunResult) :
    List OrchEv × Except String RunResult :=
  let ev0 : List OrchEv := if insertOk then [OrchEv.insertStarted] else []
  match cfgRes with
  | Except.error e =>
    (ev0 ++ (if insertOk then [OrchEv.updateRec Status.failed] else []),
     Except.error e)
  | Except.ok cfg =>
    let r := pipeline cfg
    (ev0 ++ (if insertOk then [OrchEv.updateRec r.status] else []),
     Except.ok r)

-- Source configuration read by handle_database_source (lines 740-756).  A
-- None field is an absent key (dict.get).
structure DbSourceConfig where
  host : Option String
  port : Option Nat
  database : Option String
  username : Option String
  password : Option String
  query : Option String
  csvFilename : Option String
  batchSize : Option Nat
  useServerSideCursor : Option Bool
  useTempFile : Option Bool
deriving DecidableEq

-- required_fields/missing_fields (lines 749-758): note that "port" IS part of
-- the validated dictionary, in this order.
def missingFields (c : DbSourceConfig) : List String :=
  ((([("host", c.host.isNone), ("port", c.port.isNone),
      ("database", c.database.isNone), ("username", c.username.isNone),
      ("password", c.password.isNone),
      ("query", c.query.isNone)]).filter (fun p => p.2)).map (fun p => p.1))

-- Scratch-file lifecycle events of handle_database_source.
inductive TempEv where
  | createTemp
  | removeTemp
deriving DecidableEq

structure DbResult where
  status : Status
  rows : Nat
  summary : String
deriving DecidableEq

-- cur.fetchmany(batch_size) loop (lines 875-911) for the server-side cursor.
-- A stream cell is one fetchable row; true is a good row, false is a row
-- whose fetch raises.  fetchmany takes up to B cells; if any taken cell is
-- bad the call raises, otherwise the rows are written and counted.  The
-- first argument is fuel, strictly decreasing; the wrapper supplies
-- list length + 1, which suffices because each round either consumes at
-- least one cell (B >= 1 on a non-empty list) or returns at once
-- (fetchmany(0) yields the empty list, so the loop breaks with count 0).
def fetchLoopAux (B : Nat) : Nat → List Bool → Except Unit Nat
  | 0, _ => Except.error ()
  | _ + 1, [] => Except.ok 0
  | f + 1, c :: cs =>
    if B = 0 then Except.ok 0
    else
      let chunk := (c :: cs).take B
      if chunk.all (fun b => b) then
        match fetchLoopAux B f ((c :: cs).drop B) with
        | Except.ok n => Except.ok (chunk.length + n)
        | Except.error e => Except.error e
      else Except.error ()

def fetchLoop (B : Nat) (l : List Bool) : Except Unit Nat :=
  fetchLoopAux B (l.length + 1) l

-- Destination handling of handle_database_source after the CSV is built
-- (lines 926-1043).  ev0 holds the scratch events emitted so far.  For the
-- sftp/nfs/filesystem destinations an in-memory CSV is first written to a
-- fresh scratch file (line 941); transfer_csv_to_sftp/transfer_csv_to_-
-- filesystem unlink the scratch file on success and on failure.  For the
-- default object-store path the scratch file is read and unlinked (line 965)
-- before the upload, whose failure makes the outer handler return a failed
-- result.  Byte sizes, locators and the exact summary texts are abbreviated;
-- statuses, row counts and the file lifecycle follow the source.
def finishExport (ev0 : List TempEv) (useTemp : Bool) (rowCount : Nat)
    (destType : String) (transferOk uploadOk : Bool) :
    List TempEv × DbResult :=
  if destType == "sftp" || destType == "nfs" || destType == "filesystem" then
    let ev1 := ev0 ++ (if useTemp then [] else [TempEv.createTemp])
    if transferOk then
      (ev1 ++ [TempEv.removeTemp],
       ⟨Status.success, rowCount, "Exported rows to CSV and transferred to destination."⟩)
    else
      (ev1 ++ [TempEv.removeTemp], ⟨Status.failed, 0, "Error: transfer error"⟩)
  else
    let ev1 := ev0 ++ (if useTemp then [TempEv.removeTemp] else [])
    if uploadOk then
      (ev1, ⟨Status.success, rowCount, "Exported rows to CSV and uploaded to object storage."⟩)
    else
      (ev1, ⟨Status.failed, 0, "Error: upload error"⟩)

-- handle_database_source (lines 723-1055).  descAvailable models whether
-- cursor.description is populated; stream is the row stream (one Bool per
-- fetchable row, false = the fetch of that row raises); transferOk/uploadOk
-- drive the destination calls.  The returned list holds the scratch-file
-- events in program order.  Fetch/driver exception texts are abbreviated to
-- "Error: fetch error"; the outer handler (lines 1049-1055) turns every
-- raised exception into a failed result with rows_ingested 0.
def handleDatabaseSource (c : DbSourceConfig) (descAvailable : Bool)
    (stream : List Bool) (destType : String) (transferOk uploadOk : Bool) :
    List TempEv × DbResult :=
  let missing := missingFields c
  if !(missing.isEmpty) then
    ([], ⟨Status.failed, 0,
      "Error: Missing required source configuration fields: " ++
        joinCommaSep missing⟩)
  else
    let B := c.batchSize.getD 10000
    let useCursor := c.useServerSideCursor.getD true
    let useTemp := decide (1000 < B) || c.useTempFile.getD false
    if useCursor then
      match stream with
      | [] =>
        if descAvailable then
          ((if useTemp then [TempEv.createTemp, TempEv.removeTemp] else []),
           ⟨Status.success, 0, "Query returned no rows. No CSV file created."⟩)
        else
          ([], ⟨Status.success, 0, "Query returned no rows. No CSV file created."⟩)
      | false :: _ => ([], ⟨Status.failed, 0, "Error: fetch error"⟩)
      | true :: rest =>
        if !descAvailable then
          ([], ⟨Status.failed, 0,
            "Error: Query must be a SELECT statement that returns rows."⟩)
        else
          let ev0 := if useTemp then [TempEv.createTemp] else []
          match fetchLoop B rest with
          | Except.error _ => (ev0, ⟨Status.failed, 0, "Error: fetch error"⟩)
          | Except.ok n =>
            finishExport ev0 useTemp (1 + n) destType transferOk uploadOk
    else
      if !descAvailable then
        ([], ⟨Status.failed, 0,
          "Error: Query must be a SELECT statement that returns rows. Cursor description is None."⟩)
      else
        let ev0 := if useTemp then [TempEv.createTemp] else []
        if stream.all (fun b => b) then
          if stream.length = 0 then
            (ev0 ++ (if useTemp then [TempEv.removeTemp] else []),
             ⟨Status.success, 0, "Query returned no rows. No CSV file created."⟩)
          else
            finishExport ev0 useTemp stream.length destType transferOk uploadOk
        else (ev0, ⟨Status.failed, 0, "Error: fetch error"⟩)

theorem fetchLoopAux_all_good (B : Nat) (hB : 1 ≤ B) :
    ∀ (f : Nat) (l : List Bool), l.all (fun b => b) = true → l.length < f →
      fetchLoopAux B f l = Except.ok l.length := by
  intro f
  induction f with
  | zero => intro l hall hlen; omega
  | succ f ih =>
    intro l hall hlen
    match l with
    | [] => simp [fetchLoopAux]
    | c :: cs =>
      rw [fetchLoopAux, if_neg (by omega)]
      have hchunk : ((c :: cs).take B).all (fun b => b) = true := by
        rw [List.all_eq_true] at hall ⊢
        intro x hx
        exact hall x (List.take_subset B (c :: cs) hx)
      rw [if_pos hchunk]
      have hdropall : ((c :: cs).drop B).all (fun b => b) = true := by
        rw [List.all_eq_true] at hall ⊢
        intro x hx
        exact hall x (List.drop_subset B (c :: cs) hx)
      have hdlen : ((c :: cs).drop B).length < f := by
        rw [List.length_drop]
        simp only [List.length_cons] at hlen ⊢
        omega
      rw [ih _ hdropall hdlen]
      simp only [List.length_take, List.length_drop, List.length_cons]
      rw [Except.ok.injEq]
      omega

theorem fetchLoop_all_good (B : Nat) (hB : 1 ≤ B) (l : List Bool)
    (hall : l.all (fun b => b) = true) : fetchLoop B l = Except.ok l.length :=
  fetchLoopAux_all_good B hB (l.length + 1) l hall (by omega)

-- Per-key effects of the object-store move loop when every copy succeeds.
def s3EvFor (pre pat : String) (k : String) : List Ev :=
  if endsWithSlash k then []
  else if s3MatchB pre pat k then [Ev.copyOk k, Ev.delete k]
  else []

theorem s3MoveGo_allOk (pre pat : String) :
    ∀ (ks : List String) (n : Nat),
      (s3MoveGo (fun _ => true) pre pat ks n).2 =
        evConcat (s3EvFor pre pat) ks := by
  intro ks
  induction ks with
  | nil => intro n; simp [s3MoveGo, evConcat]
  | cons a as ih =>
    intro n
    by_cases h1 : endsWithSlash a = true
    · simp [s3MoveGo, h1, ih, evConcat, s3EvFor]
    · by_cases h2 : s3MatchB pre pat a = true
      · simp [s3MoveGo, h1, h2, ih, evConcat, s3EvFor]
      · simp [s3MoveGo, h1, h2, ih, evConcat, s3EvFor]

-- Per-key effects of the SFTP loop when every upload succeeds.
def sftpEvFor (pre pat : String) (k : String) : List Ev :=
  if endsWithSlash k then []
  else if sftpMatchB pre pat k then
    [Ev.download k, Ev.uploadOk k, Ev.delete k]
  else []

theorem sftpGo_allOk (pre pat : String) :
    ∀ (ks : List String) (n : Nat),
      (sftpGo (fun _ => true) pre pat ks n).2 =
        evConcat (sftpEvFor pre pat) ks ++ [Ev.closeSftp, Ev.closeTransport] := by
  intro ks
  induction ks with
  | nil => intro n; simp [sftpGo, evConcat]
  | cons a as ih =>
    intro n
    by_cases h1 : endsWithSlash a = true
    · simp [sftpGo, h1, ih, evConcat, sftpEvFor]
    · by_cases h2 : sftpMatchB pre pat a = true
      · simp [sftpGo, h1, h2, ih, evConcat, sftpEvFor]
      · simp [sftpGo, h1, h2, ih, evConcat, sftpEvFor]

-- Per-key effects of the filesystem loop when every write succeeds.
def fsEvFor (pre pat : String) (k : String) : List Ev :=
  if endsWithSlash k then []
  else if fsMatchB pre pat k then [Ev.copyOk k, Ev.delete k]
  else []

theorem fsGo_allOk (pre pat : String) :
    ∀ (ks : List String) (n : Nat),
      (fsGo (fun _ => true) pre pat ks n).2 = evConcat (fsEvFor pre pat) ks := by
  intro ks
  induction ks with
  | nil => intro n; simp [fsGo, evConcat]
  | cons a as ih =>
    intro n
    by_cases h1 : endsWithSlash a = true
    · simp [fsGo, h1, ih, evConcat, fsEvFor]
    · by_cases h2 : fsMatchB pre pat a = true
      · simp [fsGo, h1, h2, ih, evConcat, fsEvFor]
      · simp [fsGo, h1, h2, ih, evConcat, fsEvFor]

-- The object-store test equals the plain three-way disjunction of the claim:
-- its extra file_pattern == "*" shortcut is absorbed by the first disjunct.
theorem s3MatchB_eq (pre pat key : String) :
    s3MatchB pre pat key =
      (globMatch (bareName key) pat || globMatch key (pre ++ pat) ||
        globMatch key pat) := by
  by_cases hp : pat = "*"
  · subst hp
    simp [s3MatchB, globMatch_star]
  · have hb : (pat == "*") = false := beq_eq_false_iff_ne.mpr hp
    simp [s3MatchB, hb]

-- The SFTP/filesystem/REST tests equal the two-way disjunction: the bare
-- file name against the pattern, or the full key against prefix + pattern;
-- the full key is never matched against the pattern unmodified.
theorem sftpMatchB_eq (pre pat key : String) :
    sftpMatchB pre pat key =
      (globMatch (bareName key) pat || globMatch key (pre ++ pat)) := by
  by_cases hp : pat = "*"
  · subst hp
    simp [sftpMatchB, globMatch_star]
  · have hb : (pat == "*") = false := beq_eq_false_iff_ne.mpr hp
    simp [sftpMatchB, hb]

theorem fsMatchB_eq (pre pat key : String) :
    fsMatchB pre pat key =
      (globMatch (bareName key) pat || globMatch key (pre ++ pat)) := by
  by_cases hp : pat = "*"
  · subst hp
    simp [fsMatchB, globMatch_star]
  · have hb : (pat == "*") = false := beq_eq_false_iff_ne.mpr hp
    simp [fsMatchB, hb]

theorem restMatchB_eq (pre pat key : String) :
    restMatchB pre pat key =
      (globMatch (bareName key) pat || globMatch key (pre ++ pat)) := by
  by_cases hp : pat = "*"
  · subst hp
    simp [restMatchB, globMatch_star]
  · have hb : (pat == "*") = false := beq_eq_false_iff_ne.mpr hp
    simp [restMatchB, hb]

theorem s3EvFor_delete (pre pat k k2 : String) :
    Ev.delete k ∈ s3EvFor pre pat k2 ↔
      k = k2 ∧ endsWithSlash k2 = false ∧ s3MatchB pre pat k2 = true := by
  by_cases h1 : endsWithSlash k2 = true
  · simp [s3EvFor, h1]
  · by_cases h2 : s3MatchB pre pat k2 = true
    · simp [s3EvFor, h1, h2, Bool.eq_false_iff.mpr h1]
    · simp [s3EvFor, h1, h2]

theorem sftpEvFor_delete (pre pat k k2 : String) :
    Ev.delete k ∈ sftpEvFor pre pat k2 ↔
      k = k2 ∧ endsWithSlash k2 = false ∧ sftpMatchB pre pat k2 = true := by
  by_cases h1 : endsWithSlash k2 = true
  · simp [sftpEvFor, h1]
  · by_cases h2 : sftpMatchB pre pat k2 = true
    · simp [sftpEvFor, h1, h2, Bool.eq_false_iff.mpr h1]
    · simp [sftpEvFor, h1, h2]

theorem fsEvFor_delete (pre pat k k2 : String) :
    Ev.delete k ∈ fsEvFor pre pat k2 ↔
      k = k2 ∧ endsWithSlash k2 = false ∧ fsMatchB pre pat k2 = true := by
  by_cases h1 : endsWithSlash k2 = true
  · simp [fsEvFor, h1]
  · by_cases h2 : fsMatchB pre pat k2 = true
    · simp [fsEvFor, h1, h2, Bool.eq_false_iff.mpr h1]
    · simp [fsEvFor, h1, h2]

theorem restEvFor_delete (pre pat : String) (outcome : String → Except Unit Nat)
    (k k2 : String) :
    Ev.delete k ∈ restEvFor pre pat outcome k2 ↔
      k = k2 ∧ endsWithSlash k2 = false ∧ restMatchB pre pat k2 = true ∧
        isSuccessStatus (outcome k2) = true := by
  by_cases h1 : endsWithSlash k2 = true
  · simp [restEvFor, h1]
  · by_cases h2 : restMatchB pre pat k2 = true
    · by_cases h3 : isSuccessStatus (outcome k2) = true
      · simp [restEvFor, h1, h2, h3, Bool.eq_false_iff.mpr h1]
      · simp [restEvFor, h1, h2, h3]
    · simp [restEvFor, h1, h2]

theorem restEvFor_download (pre pat : String)
    (outcome : String → Except Unit Nat) (k k2 : String) :
    Ev.download k ∈ restEvFor pre pat outcome k2 ↔
      k = k2 ∧ endsWithSlash k2 = false ∧ restMatchB pre pat k2 = true := by
  by_cases h1 : endsWithSlash k2 = true
  · simp [restEvFor, h1]
  · by_cases h2 : restMatchB pre pat k2 = true
    · by_cases h3 : isSuccessStatus (outcome k2) = true
      · simp [restEvFor, h1, h2, h3, Bool.eq_false_iff.mpr h1]
      · simp [restEvFor, h1, h2, h3, Bool.eq_false_iff.mpr h1]
    · simp [restEvFor, h1, h2]

-- Retry policy facts.
theorem retrySend_not_allowed (resp : Nat → Nat) :
    retrySend false resp = Except.ok (resp 0) := by
  simp [retrySend, retrySendGo]

theorem retrySend_not_retryable (resp : Nat → Nat)
    (h : retryStatuses.contains (resp 0) = false) :
    retrySend true resp = Except.ok (resp 0) := by
  have hm : resp 0 ∉ retryStatuses := by simpa using h
  simp [retrySend, retrySendGo, hm]

theorem retrySend_exhausted (resp : Nat → Nat)
    (h : ∀ i, i ≤ 3 → retryStatuses.contains (resp i) = true) :
    retrySend true resp = Except.error () := by
  have h0 : resp 0 ∈ retryStatuses := by simpa using h 0 (by omega)
  have h1 : resp 1 ∈ retryStatuses := by simpa using h 1 (by omega)
  have h2 : resp 2 ∈ retryStatuses := by simpa using h 2 (by omega)
  have h3 : resp 3 ∈ retryStatuses := by simpa using h 3 (by omega)
  simp [retrySend, retrySendGo, h0, h1, h2, h3]

-- Run-record call counters.
def isInsertEv : OrchEv → Bool
  | OrchEv.insertStarted => true
  | _ => false

def countInsertStarted (evs : List OrchEv) : Nat :=
  (evs.filter isInsertEv).length

def countUpdates (evs : List OrchEv) : Nat :=
  (evs.filter isUpdateEv).length

theorem transferToRestApi_delete_iff (url : String) (eo mo : Option String)
    (connFail : String → Bool) (resp : String → Nat → Nat)
    (srcPath pat : String) (keys : List String) (k : String) :
    Ev.delete k ∈
        (transferToRestApi ⟨some url, eo, mo⟩ connFail resp srcPath pat keys).2 ↔
      k ∈ keys ∧ endsWithSlash k = false ∧
        restMatchB (prefixOf srcPath) pat k = true ∧
        isSuccessStatus (restOutcome connFail resp
          (retryAllowedMethods.contains (toUpperStr (mo.getD "POST"))) k) =
          true := by
  have htr : (transferToRestApi ⟨some url, eo, mo⟩ connFail resp
        srcPath pat keys).2 =
      evConcat (restEvFor (prefixOf srcPath) pat
        (restOutcome connFail resp
          (retryAllowedMethods.contains (toUpperStr (mo.getD "POST"))))) keys := by
    rw [show transferToRestApi ⟨some url, eo, mo⟩ connFail resp srcPath pat keys =
        restGo (prefixOf srcPath) pat (restOutcome connFail resp
          (retryAllowedMethods.contains (toUpperStr (mo.getD "POST")))) keys 0
      from rfl]
    rw [restGo_closed]
  rw [htr, mem_evConcat]
  constructor
  · rintro ⟨k2, hk2, hmem⟩
    rw [restEvFor_delete] at hmem
    obtain ⟨rfl, hm, hp, hs⟩ := hmem
    exact ⟨hk2, hm, hp, hs⟩
  · rintro ⟨hk, hm, hp, hs⟩
    refine ⟨k, hk, ?_⟩
    rw [restEvFor_delete]
    exact ⟨rfl, hm, hp, hs⟩

theorem transferToRestApi_download_iff (url : String) (eo mo : Option String)
    (connFail : String → Bool) (resp : String → Nat → Nat)
    (srcPath pat : String) (keys : List String) (k : String) :
    Ev.download k ∈
        (transferToRestApi ⟨some url, eo, mo⟩ connFail resp srcPath pat keys).2 ↔
      k ∈ keys ∧ endsWithSlash k = false ∧
        restMatchB (prefixOf srcPath) pat k = true := by
  have htr : (transferToRestApi ⟨some url, eo, mo⟩ connFail resp
        srcPath pat keys).2 =
      evConcat (restEvFor (prefixOf srcPath) pat
        (restOutcome connFail resp
          (retryAllowedMethods.contains (toUpperStr (mo.getD "POST"))))) keys := by
    rw [show transferToRestApi ⟨some url, eo, mo⟩ connFail resp srcPath pat keys =
        restGo (prefixOf srcPath) pat (restOutcome connFail resp
          (retryAllowedMethods.contains (toUpperStr (mo.getD "POST")))) keys 0
      from rfl]
    rw [restGo_closed]
  rw [htr, mem_evConcat]
  constructor
  · rintro ⟨k2, hk2, hmem⟩
    rw [restEvFor_download] at hmem
    obtain ⟨rfl, hm, hp⟩ := hmem
    exact ⟨hk2, hm, hp⟩
  · rintro ⟨hk, hm, hp⟩
    refine ⟨k, hk, ?_⟩
    rw [restEvFor_download]
    exact ⟨rfl, hm, hp⟩

theorem transferToRestApi_count (url : String) (eo mo : Option String)
    (connFail : String → Bool) (resp : String → Nat → Nat)
    (srcPath pat : String) (keys : List String) :
    (transferToRestApi ⟨some url, eo, mo⟩ connFail resp srcPath pat keys).1 =
      (keys.filter (restGoodB (prefixOf srcPath) pat
        (restOutcome connFail resp
          (retryAllowedMethods.contains (toUpperStr (mo.getD "POST")))))).length := by
  rw [show transferToRestApi ⟨some url, eo, mo⟩ connFail resp srcPath pat keys =
      restGo (prefixOf srcPath) pat (restOutcome connFail resp
        (retryAllowedMethods.contains (toUpperStr (mo.getD "POST")))) keys 0
    from rfl]
  rw [restGo_closed]
  simp

-- ======================================================================
-- Claims
-- ======================================================================

/-- C1: for every file-matching transfer through the object-store, SFTP,
filesystem, or REST adapter — for every per-file outcome oracle, configuration
and listing — the trace of issued effects is safe: a delete of a source file
appears only after the corresponding copy/upload of that file succeeded, and a
file whose copy/upload failed is never deleted from the source. -/
theorem c1_delete_only_after_successful_copy
    (ok : String → Bool) (restCfg : RestDestConfig) (connFail : String → Bool)
    (resp : String → Nat → Nat) (srcPath pat : String) (keys : List String) :
    safeTrace (moveProcessedFiles ok srcPath pat keys).2 ∧
    safeTrace (transferToSftp ok srcPath pat keys).2 ∧
    safeTrace (transferToFilesystem ok srcPath pat keys).2 ∧
    safeTrace (transferToRestApi restCfg connFail resp srcPath pat keys).2 :=
  ⟨s3MoveGo_safe ok (prefixOf srcPath) pat keys 0,
   transferToSftp_safe ok srcPath pat keys,
   fsGo_safe ok (prefixOf srcPath) pat keys 0,
   transferToRestApi_safe restCfg connFail resp srcPath pat keys⟩

theorem c1_witness :
    Ev.copyOk "in/a.csv" ∈ [Ev.copyOk "in/a.csv"] ∨
      Ev.uploadOk "in/a.csv" ∈ [Ev.copyOk "in/a.csv"] :=
  ((c1_delete_only_after_successful_copy (fun _ => true)
      ⟨some "http://x", none, none⟩ (fun _ => false) (fun _ _ => 200)
      "in" "*" ["in/a.csv"]).1.1) [Ev.copyOk "in/a.csv"] "in/a.csv" []
    (by decide)

/-- C2: in the run orchestrator, when the initial run-record insert succeeds,
the trace of run-record calls holds exactly one started insert and exactly one
terminal update (update statuses are success or failed by construction), also
when the configuration/pipeline step raises; when the insert fails, no record
calls are made, yet the outcome is exactly the step's outcome — the run still
executes and the recording failure is swallowed. -/
theorem c2_run_record_lifecycle (insertOk : Bool)
    (cfgRes : Except String ConnectorConfig)
    (pipeline : ConnectorConfig → RunResult) :
    (insertOk = true →
      countInsertStarted (runConnectorPipeline insertOk cfgRes pipeline).1 = 1 ∧
      countUpdates (runConnectorPipeline insertOk cfgRes pipeline).1 = 1) ∧
    (insertOk = false →
      (runConnectorPipeline insertOk cfgRes pipeline).1 = [] ∧
      (runConnectorPipeline insertOk cfgRes pipeline).2 =
        (match cfgRes with
         | Except.ok cfg => Except.ok (pipeline cfg)
         | Except.error e => Except.error e)) := by
  constructor
  · rintro rfl
    cases cfgRes with
    | ok cfg =>
      simp [runConnectorPipeline, countInsertStarted, countUpdates, isUpdateEv,
        isInsertEv, List.filter]
    | error e =>
      simp [runConnectorPipeline, countInsertStarted, countUpdates, isUpdateEv,
        isInsertEv, List.filter]
  · rintro rfl
    cases cfgRes with
    | ok cfg => simp [runConnectorPipeline]
    | error e => simp [runConnectorPipeline]

theorem c2_witness :
    countInsertStarted (runConnectorPipeline true (Except.error "boom")
      (fun _ => ⟨Status.success, 0, ""⟩)).1 = 1 ∧
    countUpdates (runConnectorPipeline true (Except.error "boom")
      (fun _ => ⟨Status.success, 0, ""⟩)).1 = 1 :=
  (c2_run_record_lifecycle true (Except.error "boom")
    (fun _ => ⟨Status.success, 0, ""⟩)).1 rfl

/-- C3 counterexample: with configured path "src" (prefix "src/") and pattern
"src/*.csv", the key "src/a.csv" satisfies the claimed three-way disjunction
(its full key matches the pattern unmodified), and the object-store adapter
moves it — but the SFTP adapter, whose test lacks the third clause, does not
transfer it even though every upload succeeds.  The filesystem and REST
adapters share the SFTP test, so the claimed rule fails for them as well. -/
theorem c3_counterexample_sftp_full_key_clause :
    (globMatch (bareName "src/a.csv") "src/*.csv" ||
      globMatch "src/a.csv" (prefixOf "src" ++ "src/*.csv") ||
      globMatch "src/a.csv" "src/*.csv") = true ∧
    Ev.delete "src/a.csv" ∉
      (transferToSftp (fun _ => true) "src" "src/*.csv" ["src/a.csv"]).2 ∧
    Ev.delete "src/a.csv" ∉
      (transferToFilesystem (fun _ => true) "src" "src/*.csv" ["src/a.csv"]).2 ∧
    Ev.delete "src/a.csv" ∈
      (moveProcessedFiles (fun _ => true) "src" "src/*.csv" ["src/a.csv"]).2 := by
  decide

/-- C3 (amended): pseudo-directory markers are always skipped, and — with
every destination call succeeding — the object-store adapter transfers a
listed candidate iff its bare filename matches the pattern OR its full key
matches prefix + pattern OR its full key matches the pattern unmodified;
the SFTP, filesystem and REST adapters transfer a candidate iff its bare
filename matches the pattern OR its full key matches prefix + pattern (the
full key is NOT matched against the pattern unmodified there). -/
theorem c3_matching_rule_amended (srcPath pat k url : String)
    (keys : List String) :
    (Ev.delete k ∈ (moveProcessedFiles (fun _ => true) srcPath pat keys).2 ↔
      k ∈ keys ∧ endsWithSlash k = false ∧
        (globMatch (bareName k) pat ||
          globMatch k (prefixOf srcPath ++ pat) || globMatch k pat) = true) ∧
    (Ev.delete k ∈ (transferToSftp (fun _ => true) srcPath pat keys).2 ↔
      k ∈ keys ∧ endsWithSlash k = false ∧
        (globMatch (bareName k) pat ||
          globMatch k (prefixOf srcPath ++ pat)) = true) ∧
    (Ev.delete k ∈ (transferToFilesystem (fun _ => true) srcPath pat keys).2 ↔
      k ∈ keys ∧ endsWithSlash k = false ∧
        (globMatch (bareName k) pat ||
          globMatch k (prefixOf srcPath ++ pat)) = true) ∧
    (Ev.delete k ∈ (transferToRestApi ⟨some url, none, none⟩ (fun _ => false)
        (fun _ _ => 200) srcPath pat keys).2 ↔
      k ∈ keys ∧ endsWithSlash k = false ∧
        (globMatch (bareName k) pat ||
          globMatch k (prefixOf srcPath ++ pat)) = true) := by
  refine ⟨?_, ?_, ?_, ?_⟩
  · rw [show (moveProcessedFiles (fun _ => true) srcPath pat keys).2 =
        evConcat (s3EvFor (prefixOf srcPath) pat) keys from
      s3MoveGo_allOk (prefixOf srcPath) pat keys 0]
    rw [mem_evConcat]
    constructor
    · rintro ⟨k2, hk2, hmem⟩
      rw [s3EvFor_delete] at hmem
      obtain ⟨rfl, hm, hp⟩ := hmem
      rw [s3MatchB_eq] at hp
      exact ⟨hk2, hm, hp⟩
    · rintro ⟨hk, hm, hp⟩
      refine ⟨k, hk, ?_⟩
      rw [s3EvFor_delete, s3MatchB_eq]
      exact ⟨rfl, hm, hp⟩
  · have htr : (transferToSftp (fun _ => true) srcPath pat keys).2 =
        Ev.openTransport :: (evConcat (sftpEvFor (prefixOf srcPath) pat) keys ++
          [Ev.closeSftp, Ev.closeTransport]) := by
      rw [show (transferToSftp (fun _ => true) srcPath pat keys).2 =
          Ev.openTransport :: (sftpGo (fun _ => true) (prefixOf srcPath) pat keys 0).2
        from rfl]
      rw [sftpGo_allOk]
    rw [htr]
    simp only [List.mem_cons, List.mem_append]
    constructor
    · rintro (h | h | h)
      · exact absurd h (by simp)
      · rw [mem_evConcat] at h
        obtain ⟨k2, hk2, hmem⟩ := h
        rw [sftpEvFor_delete] at hmem
        obtain ⟨rfl, hm, hp⟩ := hmem
        rw [sftpMatchB_eq] at hp
        exact ⟨hk2, hm, hp⟩
      · simp at h
    · rintro ⟨hk, hm, hp⟩
      right; left
      rw [mem_evConcat]
      refine ⟨k, hk, ?_⟩
      rw [sftpEvFor_delete, sftpMatchB_eq]
      exact ⟨rfl, hm, hp⟩
  · rw [show (transferToFilesystem (fun _ => true) srcPath pat keys).2 =
        evConcat (fsEvFor (prefixOf srcPath) pat) keys from
      fsGo_allOk (prefixOf srcPath) pat keys 0]
    rw [mem_evConcat]
    constructor
    · rintro ⟨k2, hk2, hmem⟩
      rw [fsEvFor_delete] at hmem
      obtain ⟨rfl, hm, hp⟩ := hmem
      rw [fsMatchB_eq] at hp
      exact ⟨hk2, hm, hp⟩
    · rintro ⟨hk, hm, hp⟩
      refine ⟨k, hk, ?_⟩
      rw [fsEvFor_delete, fsMatchB_eq]
      exact ⟨rfl, hm, hp⟩
  · have houtcome : ∀ k2 : String,
        isSuccessStatus (restOutcome (fun _ => false) (fun _ _ => 200)
          (retryAllowedMethods.contains
            (toUpperStr ((none : Option String).getD "POST"))) k2) = true := by
      intro k2
      simp [restOutcome, retrySend, retrySendGo, retryStatuses, isSuccessStatus]
    rw [transferToRestApi_delete_iff]
    rw [restMatchB_eq, houtcome k]
    simp

theorem c3_witness :
    Ev.delete "in/a.csv" ∈
      (transferToSftp (fun _ => true) "in" "*.csv" ["in/a.csv"]).2 :=
  ((c3_matching_rule_amended "in" "*.csv" "in/a.csv" "http://x"
      ["in/a.csv"]).2.1).mpr ⟨by decide, by decide, by decide⟩

/-- C4: the code contradicts the claimed port default.  With host, database,
username, password and query all present and only port absent, the validation
dictionary of handle_database_source (lines 749-758) includes "port", so the
function raises the configuration error "Missing required source configuration
fields: port" and the run fails — the dead default-to-5432 branch at lines
764-767 is never reached.  This theorem evaluates the embedded function at
that failing input. -/
theorem c4_missing_port_alone_raises :
    handleDatabaseSource
      ⟨some "dbhost", none, some "dbname", some "dbuser", some "dbpass",
        some "SELECT 1", none, none, none, none⟩ true [true] "s3" true true =
      ([], ⟨Status.failed, 0,
        "Error: Missing required source configuration fields: port"⟩) := by
  decide

/-- C5: in the REST adapter — for every configuration with a url, every
connection-failure and response oracle and every listing — (1) a file is
deleted from the source iff it is a listed non-marker candidate that matches
the pattern and whose upload outcome is a success status; (2) every matching
candidate is attempted (downloaded) no matter how the other files fail, so a
failure never aborts the batch; (3) the transferred count is the number of
matched files with a success outcome; and the bounded retry policy sends at
most 1 + 3 attempts: no retry for methods outside the allowed set, no retry
on a status outside {429, 500, 502, 503, 504}, and an error once a retryable
status has been answered on all four attempts. -/
theorem c5_rest_retry_and_delete (url : String) (eo mo : Option String)
    (connFail : String → Bool) (resp : String → Nat → Nat)
    (srcPath pat : String) (keys : List String) (k : String) :
    (Ev.delete k ∈
        (transferToRestApi ⟨some url, eo, mo⟩ connFail resp srcPath pat keys).2 ↔
      k ∈ keys ∧ endsWithSlash k = false ∧
        restMatchB (prefixOf srcPath) pat k = true ∧
        isSuccessStatus (restOutcome connFail resp
          (retryAllowedMethods.contains (toUpperStr (mo.getD "POST"))) k) =
          true) ∧
    (Ev.download k ∈
        (transferToRestApi ⟨some url, eo, mo⟩ connFail resp srcPath pat keys).2 ↔
      k ∈ keys ∧ endsWithSlash k = false ∧
        restMatchB (prefixOf srcPath) pat k = true) ∧
    ((transferToRestApi ⟨some url, eo, mo⟩ connFail resp srcPath pat keys).1 =
      (keys.filter (restGoodB (prefixOf srcPath) pat
        (restOutcome connFail resp
          (retryAllowedMethods.contains (toUpperStr (mo.getD "POST")))))).length) ∧
    (∀ r : Nat → Nat, retrySend false r = Except.ok (r 0)) ∧
    (∀ r : Nat → Nat, retryStatuses.contains (r 0) = false →
      retrySend true r = Except.ok (r 0)) ∧
    (∀ r : Nat → Nat, (∀ i, i ≤ 3 → retryStatuses.contains (r i) = true) →
      retrySend true r = Except.error ()) := by
  refine ⟨transferToRestApi_delete_iff url eo mo connFail resp srcPath pat keys k,
    transferToRestApi_download_iff url eo mo connFail resp srcPath pat keys k,
    transferToRestApi_count url eo mo connFail resp srcPath pat keys,
    retrySend_not_allowed, retrySend_not_retryable, retrySend_exhausted⟩

theorem c5_witness :
    Ev.delete "in/a.csv" ∈
      (transferToRestApi ⟨some "http://api", none, none⟩ (fun _ => false)
        (fun _ i => if i = 0 then 503 else 200) "in" "*" ["in/a.csv"]).2 ∧
    retrySend true (fun _ => 503) = Except.error () ∧
    retrySend true (fun _ => 404) = Except.ok 404 :=
  ⟨((c5_rest_retry_and_delete "http://api" none none (fun _ => false)
      (fun _ i => if i = 0 then 503 else 200) "in" "*" ["in/a.csv"]
      "in/a.csv").1).mpr ⟨by decide, by decide, by decide, by decide⟩,
   (c5_rest_retry_and_delete "http://api" none none (fun _ => false)
      (fun _ _ => 200) "in" "*" [] "x").2.2.2.2.2 (fun _ => 503)
      (fun i _ => rfl),
   (c5_rest_retry_and_delete "http://api" none none (fun _ => false)
      (fun _ _ => 200) "in" "*" [] "x").2.2.2.2.1 (fun _ => 404) (by decide)⟩

/-- C6: the code leaks the scratch file on a fetch failure.  With the default
batch size (10000 > 1000, so a scratch file is used) and the server-side
cursor, a row stream whose second fetch raises drives handle_database_source
through creation of the scratch file and into the outer exception handler,
which returns a failed result without ever removing the file: the trace holds
createTemp and no removeTemp, contradicting the claimed removal on every exit
path. -/
theorem c6_scratch_leak_on_fetch_error :
    handleDatabaseSource
      ⟨some "dbhost", some 5432, some "dbname", some "dbuser", some "dbpass",
        some "SELECT 1", none, none, none, none⟩ true [true, false] "s3"
      true true =
      ([TempEv.createTemp], ⟨Status.failed, 0, "Error: fetch error"⟩) ∧
    TempEv.removeTemp ∉
      (handleDatabaseSource
        ⟨some "dbhost", some 5432, some "dbname", some "dbuser", some "dbpass",
          some "SELECT 1", none, none, none, none⟩ true [true, false] "s3"
        true true).1 := by
  decide

/-- C7: the code leaks the SFTP session on an error path.  When the upload of
a matched file raises, transfer_to_sftp_function's top-level handler returns 0
with the transport still open: the trace holds openTransport but neither
closeSftp nor closeTransport, contradicting the claimed close on every exit
path; on the all-success path the close calls are present. -/
theorem c7_sftp_transport_leak_on_upload_error :
    transferToSftp (fun _ => false) "in" "*" ["in/a.csv"] =
      (0, [Ev.openTransport, Ev.download "in/a.csv",
        Ev.uploadFail "in/a.csv"]) ∧
    Ev.closeTransport ∉
      (transferToSftp (fun _ => false) "in" "*" ["in/a.csv"]).2 ∧
    Ev.closeSftp ∉
      (transferToSftp (fun _ => false) "in" "*" ["in/a.csv"]).2 ∧
    Ev.closeTransport ∈
      (transferToSftp (fun _ => true) "in" "*" ["in/a.csv"]).2 := by
  decide

theorem finishExport_s3 (ev0 : List TempEv) (useTemp : Bool) (rowCount : Nat) :
    finishExport ev0 useTemp rowCount "s3" true true =
      (ev0 ++ (if useTemp then [TempEv.removeTemp] else []),
       ⟨Status.success, rowCount,
        "Exported rows to CSV and uploaded to object storage."⟩) := by
  rw [finishExport, if_neg (by decide), if_pos (by decide)]

/-- C8 counterexample: with a REST-API destination configuration holding
neither url nor endpoint_url, the run does NOT fail: the ValueError raised by
the adapter is caught by the adapter's own handler, the transfer count is 0,
and run_dlt_pipeline reports success with rows_ingested 0 and a zero-file
summary — contradicting the claimed immediate configuration-error abort. -/
theorem c8_counterexample_missing_url_reports_success :
    runDltPipelineFT "rest_api" (fun _ => true) ⟨none, none, none⟩
        (fun _ => false) (fun _ _ => 200) "in" "*" ["in/a.csv"] =
      some (⟨Status.success, 0, "Transferred 0 file(s) to destination."⟩, []) := by
  decide

/-- C8 (amended): when the REST-API destination configuration holds neither
url nor endpoint_url, the adapter's internal configuration error is swallowed
by its own top-level handler before the source is listed or the destination
touched: the transfer returns 0 files with an empty effect trace, and the run
outcome is success with rows_ingested 0 — not failed. -/
theorem c8_missing_url_swallowed (cfg : RestDestConfig) (ok : String → Bool)
    (connFail : String → Bool) (resp : String → Nat → Nat)
    (srcPath pat : String) (keys : List String)
    (h1 : cfg.url = none) (h2 : cfg.endpointUrl = none) :
    transferToRestApi cfg connFail resp srcPath pat keys = (0, []) ∧
    runDltPipelineFT "rest_api" ok cfg connFail resp srcPath pat keys =
      some (⟨Status.success, 0, "Transferred 0 file(s) to destination."⟩, []) := by
  have hto : transferToRestApi cfg connFail resp srcPath pat keys = (0, []) := by
    rw [transferToRestApi, h1, h2]
    rfl
  have htf : transferFilesFunction "rest_api" ok cfg connFail resp
      srcPath pat keys = (0, []) := by
    rw [transferFilesFunction, if_neg (by decide), if_neg (by decide),
      if_neg (by decide), if_pos (by decide)]
    exact hto
  refine ⟨hto, ?_⟩
  rw [runDltPipelineFT, if_pos (by decide)]
  simp only [htf]
  rfl

theorem c8_witness :
    transferToRestApi ⟨none, none, none⟩ (fun _ => false) (fun _ _ => 200)
      "in" "*" ["in/a.csv"] = (0, []) :=
  (c8_missing_url_swallowed ⟨none, none, none⟩ (fun _ => true) (fun _ => false)
    (fun _ _ => 200) "in" "*" ["in/a.csv"] rfl rfl).1

/-- C9 (amended): for every batch size B >= 1, every cursor mode and every
row stream of R rows in which no fetch fails, handle_database_source reports
exactly R rows and succeeds — on the server-side-cursor path (first row
peeked, then fetchmany batches) and on the full-fetch path alike.  For B = 0
the cursor path stops after the peeked row (fetchmany(0) returns the empty
list), so the unrestricted claim fails; see the counterexample. -/
theorem c9_row_count_invariant (B : Nat) (useCursor : Bool)
    (stream : List Bool) (hB : 1 ≤ B)
    (hall : stream.all (fun b => b) = true) :
    ((handleDatabaseSource ⟨some "dbhost", some 5432, some "dbname",
        some "dbuser", some "dbpass", some "SELECT 1", none, some B,
        some useCursor, none⟩ true stream "s3" true true).2.rows =
      stream.length) ∧
    ((handleDatabaseSource ⟨some "dbhost", some 5432, some "dbname",
        some "dbuser", some "dbpass", some "SELECT 1", none, some B,
        some useCursor, none⟩ true stream "s3" true true).2.status =
      Status.success) := by
  cases useCursor with
  | true =>
    cases stream with
    | nil =>
      constructor
      · simp [handleDatabaseSource, missingFields]
      · simp [handleDatabaseSource, missingFields]
    | cons b rest =>
      cases b with
      | false =>
        rw [List.all_cons] at hall
        simp at hall
      | true =>
        have hrest : rest.all (fun x => x) = true := by
          rw [List.all_cons, Bool.and_eq_true] at hall
          exact hall.2
        have hfl : fetchLoop B rest = Except.ok rest.length :=
          fetchLoop_all_good B hB rest hrest
        constructor
        · simp [handleDatabaseSource, missingFields, hfl, finishExport_s3]
          omega
        · simp [handleDatabaseSource, missingFields, hfl, finishExport_s3]
  | false =>
    constructor
    · by_cases hlen : stream.length = 0
      · simp [handleDatabaseSource, missingFields, hall, hlen, finishExport_s3]
      · simp [handleDatabaseSource, missingFields, hall, hlen, finishExport_s3]
    · by_cases hlen : stream.length = 0
      · simp [handleDatabaseSource, missingFields, hall, hlen, finishExport_s3]
      · simp [handleDatabaseSource, missingFields, hall, hlen, finishExport_s3]

theorem c9_witness :
    ((handleDatabaseSource ⟨some "dbhost", some 5432, some "dbname",
        some "dbuser", some "dbpass", some "SELECT 1", none, some 1,
        some true, none⟩ true [true, true] "s3" true true).2.rows =
      [true, true].length) ∧
    ((handleDatabaseSource ⟨some "dbhost", some 5432, some "dbname",
        some "dbuser", some "dbpass", some "SELECT 1", none, some 1,
        some true, none⟩ true [true, true] "s3" true true).2.status =
      Status.success) :=
  c9_row_count_invariant 1 true [true, true] (by decide) (by decide)

/-- C9 counterexample: with batch size B = 0 on the server-side-cursor path,
a two-row result yields a reported row count of 1, not 2 — the loop peeks the
first row, then fetchmany(0) returns the empty list and the loop breaks. -/
theorem c9_counterexample_batch_size_zero :
    ((handleDatabaseSource ⟨some "dbhost", some 5432, some "dbname",
        some "dbuser", some "dbpass", some "SELECT 1", none, some 0,
        some true, none⟩ true [true, true] "s3" true true).2.rows = 1) ∧
    ¬((handleDatabaseSource ⟨some "dbhost", some 5432, some "dbname",
        some "dbuser", some "dbpass", some "SELECT 1", none, some 0,
        some true, none⟩ true [true, true] "s3" true true).2.rows =
      [true, true].length) := by
  decide

/-- C10: for every file-matching run with a destination type in
{s3, sftp, nfs, filesystem, rest_api}, run_dlt_pipeline returns status
success with rows_ingested 0 regardless of the adapter oracles (every adapter
exception is converted to a transferred count of 0 by the adapter's own
handler); a destination type outside that set makes transfer_files_function
return 0 without raising; and concretely, when the copy of the second of two
files fails after the first was already copied and deleted, the run still
reports success with a zero-file summary while the trace shows the first
file's delete. -/
theorem c10_file_transfer_always_success (ok : String → Bool)
    (restCfg : RestDestConfig) (connFail : String → Bool)
    (resp : String → Nat → Nat) (srcPath pat : String) (keys : List String) :
    (∀ dt : String, dt ∈ fileTransferDestTypes →
      (runDltPipelineFT dt ok restCfg connFail resp srcPath pat keys).map
        (fun p => (p.1.status, p.1.rows)) = some (Status.success, 0)) ∧
    (∀ dt : String, dt ∉ fileTransferDestTypes →
      transferFilesFunction dt ok restCfg connFail resp srcPath pat keys =
        (0, []) ∧
      runDltPipelineFT dt ok restCfg connFail resp srcPath pat keys = none) ∧
    runDltPipelineFT "s3" (fun k2 => decide (k2 = "in/a.csv")) ⟨none, none, none⟩
        (fun _ => false) (fun _ _ => 200) "in" "*" ["in/a.csv", "in/b.csv"] =
      some (⟨Status.success, 0, "Transferred 0 file(s) to destination."⟩,
        [Ev.copyOk "in/a.csv", Ev.delete "in/a.csv",
          Ev.copyFail "in/b.csv"]) := by
  refine ⟨?_, ?_, by decide⟩
  · intro dt hdt
    simp only [fileTransferDestTypes, List.mem_cons, List.not_mem_nil,
      or_false] at hdt
    rcases hdt with h | h | h | h | h <;>
      (subst h; rw [runDltPipelineFT, if_pos (by decide)]; simp)
  · intro dt hdt
    simp only [fileTransferDestTypes, List.mem_cons, List.not_mem_nil,
      or_false] at hdt
    push_neg at hdt
    obtain ⟨h1, h2, h3, h4, h5⟩ := hdt
    constructor
    · rw [transferFilesFunction, if_neg (by simpa using h1),
        if_neg (by simpa using h2), if_neg (by simp [h3, h4]),
        if_neg (by simpa using h5)]
    · have e1 : (dt == "s3") = false := beq_eq_false_iff_ne.mpr h1
      have e2 : (dt == "sftp") = false := beq_eq_false_iff_ne.mpr h2
      have e3 : (dt == "nfs") = false := beq_eq_false_iff_ne.mpr h3
      have e4 : (dt == "filesystem") = false := beq_eq_false_iff_ne.mpr h4
      have e5 : (dt == "rest_api") = false := beq_eq_false_iff_ne.mpr h5
      rw [runDltPipelineFT, if_neg (by simp [List.contains, List.elem,
        fileTransferDestTypes, e1, e2, e3, e4, e5])]

theorem c10_witness :
    (runDltPipelineFT "sftp" (fun _ => true) ⟨none, none, none⟩
        (fun _ => false) (fun _ _ => 200) "in" "*" ["in/a.csv"]).map
      (fun p => (p.1.status, p.1.rows)) = some (Status.success, 0) :=
  (c10_file_transfer_always_success (fun _ => true) ⟨none, none, none⟩
    (fun _ => false) (fun _ _ => 200) "in" "*" ["in/a.csv"]).1 "sftp"
    (by decide)
